import Mathlib

/-!
Verification of the shared-utils controller of the kiwrious/itiles-kiwrious
repository (src/js/shared-utils.js), as a shallow embedding in Lean 4.

Modelling conventions:
* JavaScript numbers are embedded as exact rationals (ℚ); where the claim under
  study depends on IEEE special values (NaN, ±Infinity), a dedicated `JSVal`
  type with the ECMAScript propagation rules for the involved operations is
  used instead.
* The two external SDK objects (the iTiles BLE manager and the Kiwrious serial
  service) are opaque collaborators: a call to one of their methods is modelled
  by an oracle parameter of type `TileCmd → Except JsError Unit` (a call either
  returns normally or throws), and the observable behaviour of a controller
  method is the ordered trace of SDK commands it issued together with its
  result (`Except` captures a propagated exception).
* `log` writes and DOM updates are pure observability; where a claim talks
  about them they are part of the observable effect trace, otherwise they are
  elided from the trace.
* Wall-clock sleeps (`setTimeout` waits) have no observable effect in this
  model and are elided; the countdown interval of `pairChildTiles` only emits
  log lines.
-/

namespace SharedUtils

/-- RGB color value with three channels, as constructed via `new TileColor(r, g, b)`
in the source. Channels are integers (every constructor call in the source
passes integer literals or `Math.round` results). -/
structure TileColor where
  r : ℤ
  g : ℤ
  b : ℤ
deriving DecidableEq, Repr

/-- The `Math.round` operation on an exact rational: round half toward positive
infinity, which is ECMAScript `Math.round` semantics on finite values. -/
def jsRound (x : ℚ) : ℤ := ⌊x + 1 / 2⌋

/-- Embeds `tempToColor(temp)` (shared-utils.js lines 208-214): ascending
threshold comparisons at 15, 20, 25, 30, first match wins. -/
def tempToColor (temp : ℚ) : TileColor :=
  if temp < 15 then ⟨0, 0, 153⟩       -- Blue
  else if temp < 20 then ⟨0, 153, 153⟩ -- Cyan
  else if temp < 25 then ⟨153, 153, 0⟩ -- Yellow
  else if temp < 30 then ⟨153, 77, 0⟩  -- Orange
  else ⟨153, 0, 0⟩                     -- Red

/-- Embeds `uvToColor(uv)` (shared-utils.js lines 217-223): ascending
threshold comparisons at 3, 6, 8, 11, first match wins. -/
def uvToColor (uv : ℚ) : TileColor :=
  if uv < 3 then ⟨153, 153, 153⟩      -- White/Blue (low)
  else if uv < 6 then ⟨153, 153, 0⟩   -- Yellow (moderate)
  else if uv < 8 then ⟨153, 77, 0⟩    -- Orange (high)
  else if uv < 11 then ⟨153, 0, 0⟩    -- Red (very high)
  else ⟨153, 0, 153⟩                  -- Magenta (extreme)

/-- Embeds `normalizeValue(value, min, max)` (shared-utils.js lines 226-228):
`Math.max(0, Math.min(100, ((value - min) / (max - min)) * 100))`, over exact
rationals (so the `max - min = 0` degenerate case is treated separately by
`normalizeValueJS` below, which models the IEEE special values). -/
def normalizeValue (value min max : ℚ) : ℚ :=
  Max.max 0 (Min.min 100 (((value - min) / (max - min)) * 100))

/-- Embeds `interpolateColor(color1, color2, factor)` (shared-utils.js lines
231-236): each channel is `Math.round(c1 + factor * (c2 - c1))`. -/
def interpolateColor (color1 color2 : TileColor) (factor : ℚ) : TileColor :=
  ⟨jsRound ((color1.r : ℚ) + factor * ((color2.r : ℚ) - (color1.r : ℚ))),
   jsRound ((color1.g : ℚ) + factor * ((color2.g : ℚ) - (color1.g : ℚ))),
   jsRound ((color1.b : ℚ) + factor * ((color2.b : ℚ) - (color1.b : ℚ)))⟩

/-- All three channels of the color are integers in 0–255. -/
def TileColor.validChannels (c : TileColor) : Prop :=
  0 ≤ c.r ∧ c.r ≤ 255 ∧ 0 ≤ c.g ∧ c.g ≤ 255 ∧ 0 ≤ c.b ∧ c.b ≤ 255

/-- A JavaScript number as relevant to `normalizeValue`: an exact finite value,
one of the two infinities, or NaN. -/
inductive JSVal where
  | num (q : ℚ)
  | posInf
  | negInf
  | nan
deriving DecidableEq, Repr

/-- ECMAScript subtraction on `JSVal`. -/
def jsSub : JSVal → JSVal → JSVal
  | .nan, _ => .nan
  | _, .nan => .nan
  | .num a, .num b => .num (a - b)
  | .num _, .posInf => .negInf
  | .num _, .negInf => .posInf
  | .posInf, .num _ => .posInf
  | .posInf, .negInf => .posInf
  | .posInf, .posInf => .nan
  | .negInf, .num _ => .negInf
  | .negInf, .posInf => .negInf
  | .negInf, .negInf => .nan

/-- ECMAScript division on `JSVal` (zero denominators taken as positive zero:
the source never produces a negative zero denominator from `max - min`). -/
def jsDiv : JSVal → JSVal → JSVal
  | .nan, _ => .nan
  | _, .nan => .nan
  | .num a, .num b =>
      if b = 0 then (if a = 0 then .nan else if 0 < a then .posInf else .negInf)
      else .num (a / b)
  | .num _, .posInf => .num 0
  | .num _, .negInf => .num 0
  | .posInf, .num b => if 0 ≤ b then .posInf else .negInf
  | .negInf, .num b => if 0 ≤ b then .negInf else .posInf
  | .posInf, _ => .nan
  | .negInf, _ => .nan

/-- ECMAScript multiplication on `JSVal`. -/
def jsMul : JSVal → JSVal → JSVal
  | .nan, _ => .nan
  | _, .nan => .nan
  | .num a, .num b => .num (a * b)
  | .num a, .posInf => if a = 0 then .nan else if 0 < a then .posInf else .negInf
  | .num a, .negInf => if a = 0 then .nan else if 0 < a then .negInf else .posInf
  | .posInf, .num b => if b = 0 then .nan else if 0 < b then .posInf else .negInf
  | .negInf, .num b => if b = 0 then .nan else if 0 < b then .negInf else .posInf
  | .posInf, .posInf => .posInf
  | .posInf, .negInf => .negInf
  | .negInf, .posInf => .negInf
  | .negInf, .negInf => .posInf

/-- ECMAScript `Math.min` on `JSVal`: NaN-propagating. -/
def jsMin : JSVal → JSVal → JSVal
  | .nan, _ => .nan
  | _, .nan => .nan
  | .num a, .num b => .num (Min.min a b)
  | .negInf, _ => .negInf
  | _, .negInf => .negInf
  | .posInf, y => y
  | x, .posInf => x

/-- ECMAScript `Math.max` on `JSVal`: NaN-propagating. -/
def jsMax : JSVal → JSVal → JSVal
  | .nan, _ => .nan
  | _, .nan => .nan
  | .num a, .num b => .num (Max.max a b)
  | .posInf, _ => .posInf
  | _, .posInf => .posInf
  | .negInf, y => y
  | x, .negInf => x

/-- The same source expression as `normalizeValue` (shared-utils.js lines
226-228), but over `JSVal` so that the IEEE special values of the
unguarded division (NaN for `0/0`) and their propagation through `Math.min`/`Math.max`
are represented. -/
def normalizeValueJS (value min max : JSVal) : JSVal :=
  jsMax (.num 0) (jsMin (.num 100)
    (jsMul (jsDiv (jsSub value min) (jsSub max min)) (.num 100)))

/-- A thrown JavaScript `Error`, identified by its message. -/
structure JsError where
  message : String
deriving DecidableEq, Repr

/-- The log entry value `{ timestamp, message, type }` built by `log`
(shared-utils.js line 18). `type` is a free-form tag string. -/
structure LogEntry where
  timestamp : String
  message : String
  ty : String
deriving DecidableEq, Repr

/-- The `AppController` state (shared-utils.js lines 5-13). The two SDK session
handles are opaque (`Option Unit`: absent or present), the latest decoded
sensor reading is opaque, and log subscribers are opaque callback handles
identified by `Nat`, kept in registration order. -/
structure AppController where
  kiwriousConnected : Bool
  itilesConnected : Bool
  iTilesManager : Option Unit
  serialService : Option Unit
  currentSensorData : Option Unit
  logCallbacks : List Nat
deriving DecidableEq, Repr

/-- The freshly constructed controller (constructor, shared-utils.js lines 6-13). -/
def initController : AppController :=
  { kiwriousConnected := false
    itilesConnected := false
    iTilesManager := none
    serialService := none
    currentSensorData := none
    logCallbacks := [] }

/-- Embeds `log(message, type)` (shared-utils.js lines 16-23). The timestamp
string is the output of the ambient `toLocaleTimeString()` clock, passed in as a
parameter. The observable effect is the list of subscriber invocations, in
order, each pairing the invoked callback handle with the `LogEntry` passed to
it; the `console.log` sink is elided. The controller state is returned
unchanged (the entry is not stored). -/
def log (s : AppController) (timestamp message ty : String) :
    List (Nat × LogEntry) × AppController :=
  (s.logCallbacks.map fun cb => (cb, ⟨timestamp, message, ty⟩), s)

/-- Embeds `onLog(callback)` (shared-utils.js lines 25-27): push appends. -/
def onLog (s : AppController) (cb : Nat) : AppController :=
  { s with logCallbacks := s.logCallbacks ++ [cb] }

/-- An observable UI-side effect of the connection-state callback: a log line
or a `updateConnectionStatus()` invocation. -/
inductive UiEffect where
  | logged (message ty : String)
  | statusUpdated
deriving DecidableEq, Repr

/-- Embeds the connection-state callback registered by `connectITiles` on the
iTiles manager (shared-utils.js lines 55-65): state 2 sets the connected flag,
logs, and updates the status display; state 0 clears the flag, logs, and
updates the status display; every other state code does nothing. -/
def connectionStateCallback (s : AppController) (state : ℤ) :
    AppController × List UiEffect :=
  if state = 2 then
    ({ s with itilesConnected := true },
     [.logged "✅ iTiles connected!" "success", .statusUpdated])
  else if state = 0 then
    ({ s with itilesConnected := false },
     [.logged "iTiles disconnected" "warning", .statusUpdated])
  else (s, [])

/-- A command sent to the iTiles manager during `pairChildTiles`. The
`gameInProgress` command always carries `GAME_STATUS.IN_GAME` in the source, so
only the tile index is recorded. -/
inductive TileCmd where
  | queryOnlineTiles
  | confirmAssignment
  | gameInProgress (idx : Nat)
  | queryPairedTiles
deriving DecidableEq, Repr

/-- Embeds the `for (let i = 1; i <= 6; i++)` loop of `pairChildTiles`
(shared-utils.js lines 168-171), as `count` iterations starting at index `i`
(the source runs it with `count = 6`, `i = 1`): each iteration awaits
`gameInProgress(GAME_STATUS.IN_GAME, i)` then sleeps 0.5s (elided); a thrown
error stops the loop. Returns the issued commands and the error, if any. -/
def gameInProgressLoop (sdk : TileCmd → Except JsError Unit) :
    Nat → Nat → List TileCmd × Option JsError
  | 0, _ => ([], none)
  | n + 1, i =>
    match sdk (.gameInProgress i) with
    | .error e => ([.gameInProgress i], some e)
    | .ok _ =>
      let rest := gameInProgressLoop sdk n (i + 1)
      (.gameInProgress i :: rest.1, rest.2)

/-- Embeds `pairChildTiles()` (shared-utils.js lines 131-186). The `sdk`
oracle gives the outcome of each awaited manager call. Returns the ordered
trace of issued device commands and either `true` (all steps completed) or the
propagated error (the `catch` block logs and rethrows; the log is elided).
The two precondition checks throw before any command is issued; the 20-second
wait, its cosmetic countdown logs, and the inter-step sleeps are elided. -/
def pairChildTiles (s : AppController) (sdk : TileCmd → Except JsError Unit) :
    List TileCmd × Except JsError Bool :=
  match s.iTilesManager with
  | none => ([], .error ⟨"iTiles manager not initialized. Connect to master tile first."⟩)
  | some _ =>
    if s.itilesConnected = false then
      ([], .error ⟨"Master tile not connected. Connect to iTiles first."⟩)
    else
      match sdk .queryOnlineTiles with
      | .error e => ([.queryOnlineTiles], .error e)
      | .ok _ =>
        match sdk .confirmAssignment with
        | .error e => ([.queryOnlineTiles, .confirmAssignment], .error e)
        | .ok _ =>
          match gameInProgressLoop sdk 6 1 with
          | (tr, some e) => (.queryOnlineTiles :: .confirmAssignment :: tr, .error e)
          | (tr, none) =>
            match sdk .queryPairedTiles with
            | .error e =>
              (.queryOnlineTiles :: .confirmAssignment :: (tr ++ [.queryPairedTiles]), .error e)
            | .ok _ =>
              (.queryOnlineTiles :: .confirmAssignment :: (tr ++ [.queryPairedTiles]), .ok true)

/-- The full device-command order claimed for a successful pairing run. -/
def pairCommandOrder : List TileCmd :=
  [.queryOnlineTiles, .confirmAssignment,
   .gameInProgress 1, .gameInProgress 2, .gameInProgress 3,
   .gameInProgress 4, .gameInProgress 5, .gameInProgress 6,
   .queryPairedTiles]

/-- An observable action of `disconnect`. -/
inductive DiscAction where
  | tileDisconnect
  | stopReading
  | statusUpdate
  | logCompletion
deriving DecidableEq, Repr

/-- The sensor half and tail of `disconnect` (shared-utils.js lines 244-249):
`triggerStopReading()` is guarded by the serial handle and the connected flag;
it is not wrapped in any try/catch, so a throw propagates and skips the status
refresh and the completion log. -/
def disconnectSerialPhase (s : AppController) (serialSdk : Except JsError Unit)
    (tr : List DiscAction) : List DiscAction × Except JsError AppController :=
  match s.serialService, s.kiwriousConnected with
  | some _, true =>
    match serialSdk with
    | .error e => (tr ++ [.stopReading], .error e)
    | .ok _ =>
      (tr ++ [.stopReading, .statusUpdate, .logCompletion],
       .ok { s with kiwriousConnected := false })
  | _, _ => (tr ++ [.statusUpdate, .logCompletion], .ok s)

/-- Embeds `disconnect()` (shared-utils.js lines 239-250). `tileSdk` is the
outcome of `this.iTilesManager.disconnect()`, `serialSdk` the outcome of
`this.serialService.triggerStopReading()`. Neither call is wrapped in a
try/catch in the source, so a throw from the tile teardown propagates out of
`disconnect` and skips everything after it. Returns the trace of actions taken
and either the final controller state or the propagated error. -/
def disconnect (s : AppController) (tileSdk serialSdk : Except JsError Unit) :
    List DiscAction × Except JsError AppController :=
  match s.iTilesManager, s.itilesConnected with
  | some _, true =>
    match tileSdk with
    | .error e => ([.tileDisconnect], .error e)
    | .ok _ => disconnectSerialPhase { s with itilesConnected := false } serialSdk [.tileDisconnect]
  | _, _ => disconnectSerialPhase s serialSdk []

/-- A controller with both sessions present and connected, used for concrete
evaluations. -/
def bothConnectedController : AppController :=
  { kiwriousConnected := true
    itilesConnected := true
    iTilesManager := some ()
    serialService := some ()
    currentSensorData := none
    logCallbacks := [] }

/-! ## Theorems -/

/-- C6: for every numeric temperature `t`, `tempToColor t` returns exactly one
of five fixed colors selected by ascending threshold comparisons with bucket
boundaries at 15, 20, 25 and 30 (first matching threshold wins, else the final
bucket), and the bucket sequence as `t` increases is blue, cyan, yellow,
orange, red. -/
theorem tempToColor_buckets (t : ℚ) :
    tempToColor t ∈
      ([⟨0, 0, 153⟩, ⟨0, 153, 153⟩, ⟨153, 153, 0⟩, ⟨153, 77, 0⟩, ⟨153, 0, 0⟩] :
        List TileColor)
    ∧ (t < 15 → tempToColor t = ⟨0, 0, 153⟩)
    ∧ (15 ≤ t → t < 20 → tempToColor t = ⟨0, 153, 153⟩)
    ∧ (20 ≤ t → t < 25 → tempToColor t = ⟨153, 153, 0⟩)
    ∧ (25 ≤ t → t < 30 → tempToColor t = ⟨153, 77, 0⟩)
    ∧ (30 ≤ t → tempToColor t = ⟨153, 0, 0⟩) := by
  refine ⟨?_, ?_, ?_, ?_, ?_, ?_⟩
  · unfold tempToColor
    split_ifs <;> simp
  · intro h
    unfold tempToColor
    rw [if_pos h]
  · intro h1 h2
    unfold tempToColor
    rw [if_neg (by linarith), if_pos h2]
  · intro h1 h2
    unfold tempToColor
    rw [if_neg (by linarith), if_neg (by linarith), if_pos h2]
  · intro h1 h2
    unfold tempToColor
    rw [if_neg (by linarith), if_neg (by linarith), if_neg (by linarith), if_pos h2]
  · intro h
    unfold tempToColor
    rw [if_neg (by linarith), if_neg (by linarith), if_neg (by linarith),
      if_neg (by linarith)]

/-- Witness for C6: a temperature in the second bucket maps to cyan. -/
theorem tempToColor_buckets_witness : tempToColor 17 = ⟨0, 153, 153⟩ :=
  (tempToColor_buckets 17).2.2.1 (by norm_num) (by norm_num)

/-- C7: for every numeric uv value `u`, `uvToColor u` selects one of five fixed
colors by ascending threshold comparisons with boundaries at 3, 6, 8 and 11,
mapping the buckets in order to the low, moderate, high, very-high and extreme
colors (first matching threshold wins, else the final extreme bucket). -/
theorem uvToColor_buckets (u : ℚ) :
    uvToColor u ∈
      ([⟨153, 153, 153⟩, ⟨153, 153, 0⟩, ⟨153, 77, 0⟩, ⟨153, 0, 0⟩, ⟨153, 0, 153⟩] :
        List TileColor)
    ∧ (u < 3 → uvToColor u = ⟨153, 153, 153⟩)
    ∧ (3 ≤ u → u < 6 → uvToColor u = ⟨153, 153, 0⟩)
    ∧ (6 ≤ u → u < 8 → uvToColor u = ⟨153, 77, 0⟩)
    ∧ (8 ≤ u → u < 11 → uvToColor u = ⟨153, 0, 0⟩)
    ∧ (11 ≤ u → uvToColor u = ⟨153, 0, 153⟩) := by
  refine ⟨?_, ?_, ?_, ?_, ?_, ?_⟩
  · unfold uvToColor
    split_ifs <;> simp
  · intro h
    unfold uvToColor
    rw [if_pos h]
  · intro h1 h2
    unfold uvToColor
    rw [if_neg (by linarith), if_pos h2]
  · intro h1 h2
    unfold uvToColor
    rw [if_neg (by linarith), if_neg (by linarith), if_pos h2]
  · intro h1 h2
    unfold uvToColor
    rw [if_neg (by linarith), if_neg (by linarith), if_neg (by linarith), if_pos h2]
  · intro h
    unfold uvToColor
    rw [if_neg (by linarith), if_neg (by linarith), if_neg (by linarith),
      if_neg (by linarith)]

/-- Witness for C7: a uv index in the moderate bucket maps to yellow. -/
theorem uvToColor_buckets_witness : uvToColor 4 = ⟨153, 153, 0⟩ :=
  (uvToColor_buckets 4).2.2.1 (by norm_num) (by norm_num)

/-- C8: for all numbers `value`, `min`, `max` with `min < max`,
`normalizeValue value min max` linearly rescales to `[0, 100]` and clamps: the
result always lies in `[0, 100]` (in particular for any `value` outside
`[min, max]`: 0 below `min`, 100 above `max`), and equals exactly 50 when
`value` is the midpoint of `[min, max]`. -/
theorem normalizeValue_clamped (value min max : ℚ) (h : min < max) :
    0 ≤ normalizeValue value min max
    ∧ normalizeValue value min max ≤ 100
    ∧ (value < min → normalizeValue value min max = 0)
    ∧ (max < value → normalizeValue value min max = 100)
    ∧ (value = (min + max) / 2 → normalizeValue value min max = 50) := by
  have hd : (0 : ℚ) < max - min := by linarith
  refine ⟨le_max_left _ _, ?_, ?_, ?_, ?_⟩
  · exact max_le (by norm_num) (min_le_left _ _)
  · intro hv
    have hneg : ((value - min) / (max - min)) * 100 < 0 :=
      mul_neg_of_neg_of_pos (div_neg_of_neg_of_pos (by linarith) hd) (by norm_num)
    unfold normalizeValue
    rw [min_eq_right (by linarith), max_eq_left (by linarith)]
  · intro hv
    have h1 : (1 : ℚ) < (value - min) / (max - min) :=
      (one_lt_div hd).mpr (by linarith)
    have hgt : (100 : ℚ) ≤ ((value - min) / (max - min)) * 100 := by nlinarith
    unfold normalizeValue
    rw [min_eq_left hgt, max_eq_right (by norm_num)]
  · intro hv
    have hne : max - min ≠ 0 := ne_of_gt hd
    have hmid : ((value - min) / (max - min)) * 100 = 50 := by
      rw [hv]
      field_simp
      ring
    unfold normalizeValue
    rw [hmid, min_eq_right (by norm_num), max_eq_right (by norm_num)]

/-- Witness for C8 at `value = 5`, `min = 0`, `max = 10`. -/
theorem normalizeValue_clamped_witness :
    0 ≤ normalizeValue 5 0 10
    ∧ normalizeValue 5 0 10 ≤ 100
    ∧ ((5 : ℚ) < 0 → normalizeValue 5 0 10 = 0)
    ∧ ((10 : ℚ) < 5 → normalizeValue 5 0 10 = 100)
    ∧ ((5 : ℚ) = (0 + 10) / 2 → normalizeValue 5 0 10 = 50) :=
  normalizeValue_clamped 5 0 10 (by norm_num)

/-- C9: for all colors with integer channels in 0–255, `interpolateColor` at
factor 0 equals the first color componentwise and at factor 1 equals the second
color componentwise; for every factor, each output channel is the linear
interpolation `(1 - factor) * c1 + factor * c2` of the corresponding input
channels, rounded to the nearest integer. -/
theorem interpolateColor_endpoints (c1 c2 : TileColor)
    (h1 : c1.validChannels) (h2 : c2.validChannels) :
    interpolateColor c1 c2 0 = c1
    ∧ interpolateColor c1 c2 1 = c2
    ∧ ∀ factor : ℚ, interpolateColor c1 c2 factor =
        ⟨jsRound ((1 - factor) * (c1.r : ℚ) + factor * (c2.r : ℚ)),
         jsRound ((1 - factor) * (c1.g : ℚ) + factor * (c2.g : ℚ)),
         jsRound ((1 - factor) * (c1.b : ℚ) + factor * (c2.b : ℚ))⟩ := by
  have hr : ∀ n : ℤ, jsRound ((n : ℚ)) = n := by
    intro n
    unfold jsRound
    rw [Int.floor_int_add]
    norm_num
  have e0 : ∀ a b : ℤ, jsRound ((a : ℚ) + (0 : ℚ) * ((b : ℚ) - (a : ℚ))) = a := by
    intro a b
    rw [show ((a : ℚ) + (0 : ℚ) * ((b : ℚ) - (a : ℚ))) = ((a : ℚ)) by ring]
    exact hr a
  have e1 : ∀ a b : ℤ, jsRound ((a : ℚ) + (1 : ℚ) * ((b : ℚ) - (a : ℚ))) = b := by
    intro a b
    rw [show ((a : ℚ) + (1 : ℚ) * ((b : ℚ) - (a : ℚ))) = ((b : ℚ)) by ring]
    exact hr b
  have key : ∀ (a b : ℤ) (f : ℚ),
      jsRound ((a : ℚ) + f * ((b : ℚ) - (a : ℚ)))
        = jsRound ((1 - f) * (a : ℚ) + f * (b : ℚ)) := by
    intro a b f
    unfold jsRound
    congr 1
    ring
  obtain ⟨r1, g1, b1⟩ := c1
  obtain ⟨r2, g2, b2⟩ := c2
  refine ⟨?_, ?_, ?_⟩
  · simp only [interpolateColor, e0]
  · simp only [interpolateColor, e1]
  · intro f
    simp only [interpolateColor]
    rw [key r1 r2 f, key g1 g2 f, key b1 b2 f]

/-- Witness for C9 at two concrete valid colors. -/
theorem interpolateColor_endpoints_witness :
    interpolateColor ⟨10, 20, 30⟩ ⟨110, 220, 30⟩ 0 = ⟨10, 20, 30⟩ :=
  (interpolateColor_endpoints ⟨10, 20, 30⟩ ⟨110, 220, 30⟩
    (by constructor <;> norm_num [TileColor.validChannels])
    (by constructor <;> norm_num [TileColor.validChannels])).1

/-- C10: `normalizeValue` divides by `max - min` without a guard; with
`min = max` and `value = min` the division is `0 / 0 = NaN`, and the
`Math.max`/`Math.min` clamp propagates NaN instead of mapping it into
`[0, 100]`, so the clamping property needs `min ≠ max` as a precondition. -/
theorem normalizeValueJS_nan_when_min_eq_max (m : ℚ) :
    normalizeValueJS (.num m) (.num m) (.num m) = .nan := by
  simp [normalizeValueJS, jsSub, jsDiv, jsMul, jsMin, jsMax, sub_self]

/-- C5: with `N` registered log subscribers, one `log(message, type)` call
invokes each subscriber exactly once, in registration order, passing each the
same `LogEntry` whose `message` and `type` equal the arguments of the call and whose
`timestamp` is the formatted local-time string stamped at the call; the entry
is not stored on the controller (the state is unchanged). -/
theorem log_fanout (s : AppController) (timestamp message ty : String) :
    (log s timestamp message ty).1.length = s.logCallbacks.length
    ∧ (∀ i : Nat, (log s timestamp message ty).1[i]? =
        (s.logCallbacks[i]?).map fun cb => (cb, ⟨timestamp, message, ty⟩))
    ∧ (log s timestamp message ty).2 = s := by
  refine ⟨?_, ?_, rfl⟩
  · simp [log]
  · intro i
    simp [log]

/-- C1: `pairChildTiles` called with a null tile-manager handle, or with the
handle set but the tile-connected flag false, fails immediately with one of the
two descriptive errors of the source and issues no device command. -/
theorem pairChildTiles_precondition_failure (s : AppController)
    (sdk : TileCmd → Except JsError Unit)
    (h : s.iTilesManager = none ∨ s.itilesConnected = false) :
    (pairChildTiles s sdk).1 = []
    ∧ ((pairChildTiles s sdk).2 =
          .error ⟨"iTiles manager not initialized. Connect to master tile first."⟩
        ∨ (pairChildTiles s sdk).2 =
          .error ⟨"Master tile not connected. Connect to iTiles first."⟩) := by
  cases hm : s.iTilesManager with
  | none =>
    refine ⟨?_, .inl ?_⟩ <;> simp [pairChildTiles, hm]
  | some u =>
    have hc : s.itilesConnected = false := by
      rcases h with h1 | h2
      · rw [hm] at h1
        exact absurd h1 (by simp)
      · exact h2
    refine ⟨?_, .inr ?_⟩ <;> simp [pairChildTiles, hm, hc]

/-- Witness for C1: on the freshly constructed controller (no manager), the
call issues no command and throws the first precondition error. -/
theorem pairChildTiles_precondition_failure_witness :
    (pairChildTiles initController (fun _ => .ok ())).1 = []
    ∧ ((pairChildTiles initController (fun _ => .ok ())).2 =
          .error ⟨"iTiles manager not initialized. Connect to master tile first."⟩
        ∨ (pairChildTiles initController (fun _ => .ok ())).2 =
          .error ⟨"Master tile not connected. Connect to iTiles first."⟩) :=
  pairChildTiles_precondition_failure initController (fun _ => .ok ()) (.inl rfl)

/-- C3: the connection-state callback registered by `connectITiles` maps state
code 2 to tile-connected `true` and state code 0 to tile-connected `false`,
invoking the status update once on each of these two transitions, and leaves
the state and display untouched for every other state code; the sequence of
callbacks 2 then 0 makes the flag transition true then false with the status
update invoked exactly twice. -/
theorem connectionStateCallback_spec (s : AppController) (state : ℤ) :
    (state = 2 →
      (connectionStateCallback s state).1 = { s with itilesConnected := true }
      ∧ (connectionStateCallback s state).2.count .statusUpdated = 1)
    ∧ (state = 0 →
      (connectionStateCallback s state).1 = { s with itilesConnected := false }
      ∧ (connectionStateCallback s state).2.count .statusUpdated = 1)
    ∧ (state ≠ 2 → state ≠ 0 → connectionStateCallback s state = (s, []))
    ∧ ((connectionStateCallback s 2).1.itilesConnected = true
      ∧ (connectionStateCallback ((connectionStateCallback s 2).1) 0).1.itilesConnected
          = false
      ∧ ((connectionStateCallback s 2).2
          ++ (connectionStateCallback ((connectionStateCallback s 2).1) 0).2).count
            .statusUpdated = 2) := by
  refine ⟨?_, ?_, ?_, rfl, rfl, rfl⟩
  · intro h
    subst h
    exact ⟨rfl, rfl⟩
  · intro h
    subst h
    exact ⟨rfl, rfl⟩
  · intro h2 h0
    simp [connectionStateCallback, h2, h0]

/-- Witness for C3: on the fresh controller, state code 2 sets the flag and
updates the status display once. -/
theorem connectionStateCallback_spec_witness :
    (connectionStateCallback initController 2).1
      = { initController with itilesConnected := true }
    ∧ (connectionStateCallback initController 2).2.count .statusUpdated = 1 :=
  (connectionStateCallback_spec initController 2).1 rfl

/-- C4 (claim refuted by the code): with both subsystems connected, a throw
from the tile teardown propagates out of `disconnect`: the trace contains only
the tile-disconnect attempt — `triggerStopReading` is never called, the
sensor-connected flag is never cleared, and the call fails with the tile
error instead of completing. -/
theorem disconnect_unguarded_teardown :
    disconnect bothConnectedController (.error ⟨"tile teardown failure"⟩) (.ok ())
      = ([.tileDisconnect], .error ⟨"tile teardown failure"⟩) := rfl

/-- The commands a fully successful run of the activation loop issues:
`count` consecutive `gameInProgress` commands starting at index `i`. -/
def gameCmds : Nat → Nat → List TileCmd
  | 0, _ => []
  | n + 1, i => .gameInProgress i :: gameCmds n (i + 1)

/-- Either the activation loop completes, with every call succeeding and the
trace being the full consecutive index range, or it stops at the first failing
call, with the trace a prefix of that range ending at the failing command. -/
theorem gameInProgressLoop_cases (sdk : TileCmd → Except JsError Unit) :
    ∀ n i,
      (gameInProgressLoop sdk n i = (gameCmds n i, none)
        ∧ ∀ c ∈ gameCmds n i, sdk c = .ok ())
      ∨ (∃ tr c e, gameInProgressLoop sdk n i = (tr ++ [c], some e)
        ∧ (tr ++ [c]) <+: gameCmds n i
        ∧ sdk c = .error e
        ∧ ∀ c2 ∈ tr, sdk c2 = .ok ()) := by
  intro n
  induction n with
  | zero =>
    intro i
    left
    exact ⟨rfl, by simp [gameCmds]⟩
  | succ n ih =>
    intro i
    cases hsdk : sdk (.gameInProgress i) with
    | error e =>
      right
      refine ⟨[], .gameInProgress i, e, ?_, ?_, hsdk, by simp⟩
      · simp [gameInProgressLoop, hsdk]
      · exact ⟨gameCmds n (i + 1), by simp [gameCmds]⟩
    | ok u =>
      cases u
      rcases ih (i + 1) with ⟨hloop, hall⟩ | ⟨tr, c, e, hloop, hpre, herr, hall⟩
      · left
        constructor
        · simp [gameInProgressLoop, hsdk, hloop, gameCmds]
        · intro c hc
          rw [show gameCmds (n + 1) i = .gameInProgress i :: gameCmds n (i + 1) from rfl]
            at hc
          rcases List.mem_cons.mp hc with rfl | h2
          · exact hsdk
          · exact hall c h2
      · right
        obtain ⟨t, ht⟩ := hpre
        refine ⟨.gameInProgress i :: tr, c, e, ?_, ?_, herr, ?_⟩
        · simp [gameInProgressLoop, hsdk, hloop]
        · refine ⟨t, ?_⟩
          rw [show gameCmds (n + 1) i = .gameInProgress i :: gameCmds n (i + 1) from rfl]
          rw [show ((TileCmd.gameInProgress i :: tr) ++ [c]) ++ t
              = TileCmd.gameInProgress i :: ((tr ++ [c]) ++ t) by simp]
          rw [ht]
        · intro c2 hc2
          rcases List.mem_cons.mp hc2 with rfl | h2
          · exact hsdk
          · exact hall c2 h2

/-- C2: when the tile-manager handle is set and the tile-connected flag is
true, if no SDK call throws then `pairChildTiles` issues exactly
`queryOnlineTiles`, `confirmAssignment`, `gameInProgress` for tile indices 1
through 6 in ascending order, then `queryPairedTiles`, and returns `true`; and
whenever the call fails with an error, that error is the one thrown by the
last issued command, every earlier issued command succeeded, and the issued
trace is a prefix of the full order (the remaining steps were aborted and the
error propagated). -/
theorem pairChildTiles_command_sequence (s : AppController)
    (sdk : TileCmd → Except JsError Unit)
    (hm : s.iTilesManager ≠ none) (hc : s.itilesConnected = true) :
    ((∀ c, sdk c = .ok ()) → pairChildTiles s sdk = (pairCommandOrder, .ok true))
    ∧ (∀ e, (pairChildTiles s sdk).2 = .error e →
        ∃ tr c, (pairChildTiles s sdk).1 = tr ++ [c]
          ∧ (tr ++ [c]) <+: pairCommandOrder
          ∧ sdk c = .error e
          ∧ ∀ c2 ∈ tr, sdk c2 = .ok ()) := by
  obtain ⟨m, hm2⟩ : ∃ m, s.iTilesManager = some m := by
    cases h : s.iTilesManager with
    | none => exact absurd h hm
    | some m => exact ⟨m, rfl⟩
  cases m
  constructor
  · intro hall
    have hloop : gameInProgressLoop sdk 6 1 = (gameCmds 6 1, none) := by
      simp [gameInProgressLoop, gameCmds, hall]
    simp [pairChildTiles, hm2, hc, hall, hloop, pairCommandOrder, gameCmds]
  · intro e he
    cases h1 : sdk .queryOnlineTiles with
    | error e1 =>
      have hres : pairChildTiles s sdk = ([.queryOnlineTiles], .error e1) := by
        simp [pairChildTiles, hm2, hc, h1]
      rw [hres] at he
      simp only [Except.error.injEq] at he
      subst he
      refine ⟨[], .queryOnlineTiles, ?_, ?_, h1, by simp⟩
      · simp [hres]
      · exact ⟨[.confirmAssignment, .gameInProgress 1, .gameInProgress 2,
          .gameInProgress 3, .gameInProgress 4, .gameInProgress 5,
          .gameInProgress 6, .queryPairedTiles], rfl⟩
    | ok u1 =>
      cases u1
      cases h2 : sdk .confirmAssignment with
      | error e2 =>
        have hres : pairChildTiles s sdk
            = ([.queryOnlineTiles, .confirmAssignment], .error e2) := by
          simp [pairChildTiles, hm2, hc, h1, h2]
        rw [hres] at he
        simp only [Except.error.injEq] at he
        subst he
        refine ⟨[.queryOnlineTiles], .confirmAssignment, ?_, ?_, h2, ?_⟩
        · simp [hres]
        · exact ⟨[.gameInProgress 1, .gameInProgress 2, .gameInProgress 3,
            .gameInProgress 4, .gameInProgress 5, .gameInProgress 6,
            .queryPairedTiles], rfl⟩
        · intro c2 hc2
          rcases List.mem_singleton.mp hc2 with rfl
          exact h1
      | ok u2 =>
        cases u2
        rcases gameInProgressLoop_cases sdk 6 1 with
          ⟨hloop, hall6⟩ | ⟨tr, c, e0, hloop, hpre, herr, hall0⟩
        · cases h3 : sdk .queryPairedTiles with
          | error e3 =>
            have hres : pairChildTiles s sdk
                = (.queryOnlineTiles :: .confirmAssignment ::
                    (gameCmds 6 1 ++ [.queryPairedTiles]), .error e3) := by
              simp [pairChildTiles, hm2, hc, h1, h2, hloop, h3]
            rw [hres] at he
            simp only [Except.error.injEq] at he
            subst he
            refine ⟨.queryOnlineTiles :: .confirmAssignment :: gameCmds 6 1,
              .queryPairedTiles, ?_, ?_, h3, ?_⟩
            · simp [hres]
            · refine ⟨[], ?_⟩
              rw [List.append_nil]
              rw [show ((TileCmd.queryOnlineTiles :: TileCmd.confirmAssignment ::
                  gameCmds 6 1) ++ [TileCmd.queryPairedTiles])
                  = TileCmd.queryOnlineTiles :: TileCmd.confirmAssignment ::
                    (gameCmds 6 1 ++ [TileCmd.queryPairedTiles]) by simp]
              rfl
            · intro c2 hc2
              rcases List.mem_cons.mp hc2 with rfl | hc2
              · exact h1
              rcases List.mem_cons.mp hc2 with rfl | hc2
              · exact h2
              · exact hall6 c2 hc2
          | ok u3 =>
            cases u3
            have hres : (pairChildTiles s sdk).2 = .ok true := by
              simp [pairChildTiles, hm2, hc, h1, h2, hloop, h3]
            rw [hres] at he
            exact absurd he (by simp)
        · have hres : pairChildTiles s sdk
              = (.queryOnlineTiles :: .confirmAssignment :: (tr ++ [c]),
                 .error e0) := by
            simp [pairChildTiles, hm2, hc, h1, h2, hloop]
          rw [hres] at he
          simp only [Except.error.injEq] at he
          subst he
          obtain ⟨t, ht⟩ := hpre
          refine ⟨.queryOnlineTiles :: .confirmAssignment :: tr, c, ?_, ?_, herr, ?_⟩
          · rw [hres]
            simp
          · refine ⟨t ++ [.queryPairedTiles], ?_⟩
            rw [show (((TileCmd.queryOnlineTiles :: TileCmd.confirmAssignment :: tr)
                ++ [c]) ++ (t ++ [TileCmd.queryPairedTiles]))
                = TileCmd.queryOnlineTiles :: TileCmd.confirmAssignment ::
                  (((tr ++ [c]) ++ t) ++ [TileCmd.queryPairedTiles]) by simp]
            rw [ht]
            rfl
          · intro c2 hc2
            rcases List.mem_cons.mp hc2 with rfl | hc2
            · exact h1
            rcases List.mem_cons.mp hc2 with rfl | hc2
            · exact h2
            · exact hall0 c2 hc2

/-- Witness for C2: with both preconditions satisfied and an SDK in which no
call throws, the full command order is issued and `true` is returned. -/
theorem pairChildTiles_command_sequence_witness :
    pairChildTiles bothConnectedController (fun _ => .ok ())
      = (pairCommandOrder, .ok true) :=
  (pairChildTiles_command_sequence bothConnectedController (fun _ => .ok ())
    (by simp [bothConnectedController]) rfl).1 (fun c => rfl)

end SharedUtils
